import Mathlib

/-!
Shallow embedding of the stock-agent repository (debate room signal
aggregation, MCP data-tool wrappers, backtest baseline strategies) and
proofs about the claims on its behaviour.

Python floats are modelled as rationals (`ℚ`), Python ints as `ℤ`,
Python strings as `String` (or `List Char` where index arithmetic is
needed), and fallible code as `Except String`/`Option` values.
-/

namespace StockAgent

/-- Truncating conversion `int(x)` of Python on a float/rational:
rounds toward zero. -/
def pyInt (q : ℚ) : ℤ := if 0 ≤ q then ⌊q⌋ else ⌈q⌉

/-! ## Debate room: value model

`src/agents/debate_room.py` works on JSON dictionaries.  The values the
code inspects are the `signal` field (a string or a number), the
`perspective` field (a string), and the `confidence` field (a string,
a number, or anything else). -/

/-- A `signal` value inside an analysis dict: either a string such as
"bullish" or a numeric score. -/
inductive SignalVal
  | str (s : String)
  | num (q : ℚ)
deriving DecidableEq

/-- A raw `confidence` value as found in a message.  A Python string is
modelled by whether it ends with a percent sign together with the result
of `float(...)` on the relevant substring (`none` when `float` raises
`ValueError`); a Python int/float is `num`; any other value is `other`. -/
inductive ConfVal
  | str (endsPercent : Bool) (parsedFloat : Option ℚ)
  | num (q : ℚ)
  | other
deriving DecidableEq

/-- `_parse_confidence` of `_traditional_debate_logic`
(src/agents/debate_room.py lines 248-265). -/
def parse_confidence : ConfVal → ℚ
  | .str true (some q) => q / 100
  | .str true none => 1/2
  | .str false (some q) => q
  | .str false none => 1/2
  | .num q => if q > 1 then q / 100 else q
  | .other => 1/2

/-- The `perspective_values` dict lookup with default 0.0
(src/agents/debate_room.py lines 268-272, 290). -/
def perspective_values (p : String) : ℚ :=
  if p = "bullish" then 1
  else if p = "neutral" then 0
  else if p = "bearish" then -1
  else 0

/-- The `signal_mapping` dict lookup with default 0.0 used when fusing a
string signal with the LLM score (src/agents/debate_room.py lines 177-178). -/
def signal_mapping (s : String) : ℚ :=
  if s = "bullish" then 1
  else if s = "neutral" then 0
  else if s = "bearish" then -1
  else 0

/-- The numeric-to-string threshold conversion at ±0.1 shared by
`_convert_numeric_signal_to_string` and `_traditional_debate_logic`. -/
def numericToString (q : ℚ) : String :=
  if q > 1/10 then "bullish"
  else if q < -(1/10) then "bearish"
  else "neutral"

/-- An analysis dict as produced by the debate room: the fields the code
branches on (`signal`, `confidence`) plus the bookkeeping fields. -/
structure Analysis where
  signal : SignalVal
  confidence : ℚ
  aggregation_method : String
  error : Option String
deriving DecidableEq

/-- `_convert_numeric_signal_to_string` (src/agents/debate_room.py
lines 429-448): a numeric `signal` is replaced by the ±0.1-threshold
string; a string signal is left alone. -/
def convert_numeric_signal_to_string (analysis : Analysis) : Analysis :=
  match analysis.signal with
  | .num q =>
      { analysis with
        signal := .str (if q > 1/10 then "bullish"
          else if q < -(1/10) then "bearish" else "neutral") }
  | .str _ => analysis

/-! ## Debate room: message model

A message content is a Python object; the code distinguishes `None`,
strings that `json.loads` parses, strings it does not parse (with or
without an `ast.literal_eval` fallback), and non-string objects.
A parsed payload is either a dict (whose relevant keys we keep) or some
non-dict value on which `.get` raises `AttributeError`. -/

/-- The dict fields of a parsed message payload read by the debate room:
`signal`, `perspective`, `confidence`, each possibly absent. -/
structure ContentDict where
  signal : Option SignalVal
  perspective : Option String
  confidence : Option ConfVal
deriving DecidableEq

/-- A parsed Python value: a dict (with the fields of interest) or a
non-dict value, on which `.get` raises `AttributeError`. -/
inductive PyVal
  | dict (d : ContentDict)
  | nondict
deriving DecidableEq

/-- A message `content` attribute.  `strParsable v`: a string that
`json.loads` parses to `v`; `strAstOnly v`: a string on which
`json.loads` raises but `ast.literal_eval` returns `v`; `strBad`: a
string neither accepts; `raw v`: a non-string object `v` (for which
`json.loads`/`ast.literal_eval` raise when applied). -/
inductive ContentVal
  | pynone
  | strParsable (v : PyVal)
  | strAstOnly (v : PyVal)
  | strBad
  | raw (v : PyVal)
deriving DecidableEq

/-- The per-researcher (perspective value, parsed confidence) pairs
accumulated by the loop of `_traditional_debate_logic`
(src/agents/debate_room.py lines 279-297): an entry contributes exactly
when its content is a string that `json.loads` parses to a dict;
any other content raises inside the loop and is skipped. -/
def traditional_items (researcher_messages : List (String × ContentVal)) :
    List (ℚ × ℚ) :=
  researcher_messages.filterMap fun nc =>
    match nc.2 with
    | .strParsable (.dict d) =>
        some (perspective_values (d.perspective.getD "neutral"),
          parse_confidence (d.confidence.getD (.num (1/2))))
    | _ => none

/-- `total_signal` of the loop: sum of perspective value times parsed
confidence. -/
def total_signal_of (items : List (ℚ × ℚ)) : ℚ :=
  (items.map fun it => it.1 * it.2).sum

/-- `total_confidence` of the loop: sum of parsed confidences. -/
def total_confidence_of (items : List (ℚ × ℚ)) : ℚ :=
  (items.map Prod.snd).sum

/-- `avg_signal` of `_traditional_debate_logic` (lines 299-304):
`total_signal / total_confidence` when the confidence sum is positive,
else 0 (also 0 when no message parsed). -/
def traditional_avg_signal (researcher_messages : List (String × ContentVal)) : ℚ :=
  let items := traditional_items researcher_messages
  if 0 < items.length then
    if 0 < total_confidence_of items then
      total_signal_of items / total_confidence_of items
    else 0
  else 0

/-- `avg_confidence` of `_traditional_debate_logic` (lines 299-304). -/
def traditional_avg_confidence (researcher_messages : List (String × ContentVal)) : ℚ :=
  let items := traditional_items researcher_messages
  if 0 < items.length then total_confidence_of items / items.length
  else 3/10

/-- `_traditional_debate_logic` (src/agents/debate_room.py lines 238-318). -/
def traditional_debate_logic (researcher_messages : List (String × ContentVal)) :
    Analysis :=
  if researcher_messages.length < 2 then
    ⟨.str "neutral", 3/10, "insufficient_data", none⟩
  else
    let avg_signal := traditional_avg_signal researcher_messages
    ⟨.str (if avg_signal > 1/10 then "bullish"
        else if avg_signal < -(1/10) then "bearish" else "neutral"),
      traditional_avg_confidence researcher_messages,
      "traditional_average", none⟩

/-! ## Debate room: the agent

`debate_room_agent` (src/agents/debate_room.py lines 17-235) wraps its
whole body in `try/except`.  The calls into modules that are not part of
the given sources (`prices_to_df` plus the regime detector, the adaptive
aggregation, and the LLM chat completion) are modelled as oracle
functions returning `Except String _`, covering every possible return
value and every possible raised exception of the real code. -/

/-- An incoming langchain message: the attributes the debate room reads. -/
structure Message where
  name : Option String
  content : ContentVal
deriving DecidableEq

/-- The `metadata` dict of the agent state: the fields the debate room
reads and writes. -/
structure Metadata where
  show_reasoning : Bool
  agent_reasoning : Option Analysis
deriving DecidableEq

/-- The `data` dict of the agent state: the `prices` entry the debate
room reads (`none` models a missing key, a `KeyError`) plus the rest of
the dict, carried through untouched. -/
structure StateData where
  prices : Option (List ℚ)
  rest : List (String × String)
deriving DecidableEq

/-- The agent state passed to `debate_room_agent`. -/
structure AgentState where
  messages : List Message
  data : StateData
  metadata : Metadata

/-- An outgoing message (name, JSON content of the analysis dict). -/
structure OutMessage where
  name : String
  content : Analysis
deriving DecidableEq

/-- The dict returned by `debate_room_agent`. -/
structure AgentOutput where
  messages : List OutMessage
  data : StateData
  metadata : Metadata

/-- A collected agent signal entry (src/agents/debate_room.py
lines 76-80): the raw `signal` and `confidence` values. -/
structure SignalInfo where
  signal : SignalVal
  confidence : ConfVal
deriving DecidableEq

/-- What the regime detector's `predict_current_regime` returns: the
`regime_name` and `confidence` entries (each possibly absent) of the
resulting dict. -/
structure RegimeInfo where
  regime_name : Option String
  confidence : Option ℚ
deriving DecidableEq

/-- What `adaptive_signal_aggregation` returns: the entries the debate
room reads. -/
structure AggResult where
  aggregated_signal : ℚ
  aggregated_confidence : ℚ
deriving DecidableEq

/-- Oracles for the repository functions called by `debate_room_agent`
whose sources are not under src/: the regime-detection pipeline
(`prices_to_df`, `AdvancedRegimeDetector`), `adaptive_signal_aggregation`
and the LLM-enhanced analysis.  Each returns `Except String _`: an
`.error` models any exception raised inside the call. -/
structure Oracles where
  regime : List ℚ → Except String RegimeInfo
  adaptive : List (String × SignalInfo) → RegimeInfo → Except String AggResult
  llm : List (String × PyVal) → List (String × SignalInfo) → RegimeInfo →
    Except String ℚ

/-- Python-dict insertion: replace the value of an existing key in
place, else append the binding (insertion order preserved). -/
def dict_insert {α : Type} (k : String) (v : α) :
    List (String × α) → List (String × α)
  | [] => [(k, v)]
  | (k2, v2) :: rest =>
      if k2 = k then (k2, v) :: rest else (k2, v2) :: dict_insert k v rest

/-- The `agent_type_mapping` dict (src/agents/debate_room.py lines 61-68). -/
def agent_type_mapping (n : String) : Option String :=
  if n = "technical_analyst_agent" then some "technical"
  else if n = "fundamentals_agent" then some "fundamental"
  else if n = "sentiment_agent" then some "sentiment"
  else if n = "valuation_agent" then some "valuation"
  else if n = "ai_model_analyst_agent" then some "ai_model"
  else if n = "macro_analyst_agent" then some "macro"
  else none

/-- The `agent_signals` dict built by the message loop
(src/agents/debate_room.py lines 44-90): a message contributes when it
has a name ending in `_agent` that is in `agent_type_mapping`, a
non-`None` content, and the content is a dict (directly, or via a
successful `json.loads` on a string); a non-dict payload raises
`AttributeError` at `content.get` and the message is skipped. -/
def collect_agent_signals (msgs : List Message) : List (String × SignalInfo) :=
  msgs.foldl (fun acc m =>
    match m.name with
    | none => acc
    | some n =>
      if n.endsWith "_agent" then
        match m.content with
        | .strParsable (.dict d) | .raw (.dict d) =>
            (match agent_type_mapping n with
             | some t =>
                 dict_insert t
                   ⟨d.signal.getD (.str "neutral"), d.confidence.getD (.num (1/2))⟩
                   acc
             | none => acc)
        | _ => acc
      else acc) []

/-- The `researcher_messages` dict built by the same loop
(src/agents/debate_room.py lines 83-86): a message is kept when its name
ends in `_agent` and starts with `researcher_`, its content is not
`None`, and no exception occurred earlier in the loop body for this
message (`json.loads` on a string must succeed; for a name in
`agent_type_mapping` a non-dict payload raises at `content.get` first). -/
def collect_researcher_messages (msgs : List Message) :
    List (String × ContentVal) :=
  msgs.foldl (fun acc m =>
    match m.name with
    | none => acc
    | some n =>
      if n.endsWith "_agent" then
        match m.content with
        | .pynone => acc
        | .strParsable v | .raw v =>
            (match agent_type_mapping n, v with
             | some _, .nondict => acc
             | _, _ =>
                 if n.startsWith "researcher_" then dict_insert n m.content acc
                 else acc)
        | .strAstOnly _ => acc
        | .strBad => acc
      else acc) []

/-- The `researcher_data` dict built by the second loop
(src/agents/debate_room.py lines 143-158): `json.loads` on a string
content, with an `ast.literal_eval` fallback; non-string contents make
both raise and are skipped. -/
def parse_researcher_data (researcher_messages : List (String × ContentVal)) :
    List (String × PyVal) :=
  researcher_messages.filterMap fun nc =>
    match nc.2 with
    | .pynone => none
    | .strParsable v => some (nc.1, v)
    | .strAstOnly v => some (nc.1, v)
    | .strBad => none
    | .raw _ => none

/-- The `try` body of `debate_room_agent` (src/agents/debate_room.py
lines 23-214), as a fallible computation producing the final
`enhanced_analysis`; `.error` is any exception escaping the body. -/
def debate_room_body (O : Oracles) (s : AgentState) : Except String Analysis :=
  match s.data.prices with
  | none => .error "KeyError: prices"
  | some prices =>
  match O.regime prices with
  | .error e => .error e
  | .ok current_regime =>
  let agent_signals := collect_agent_signals s.messages
  let researcher_messages := collect_researcher_messages s.messages
  let step1 : Except String Analysis :=
    if agent_signals ≠ [] ∧ current_regime.regime_name ≠ some "unknown" then
      match O.adaptive agent_signals current_regime with
      | .error e => .error e
      | .ok agg =>
          .ok ⟨.num agg.aggregated_signal, agg.aggregated_confidence,
            "regime_aware_adaptive", none⟩
    else
      .ok (traditional_debate_logic researcher_messages)
  match step1 with
  | .error e => .error e
  | .ok enhanced =>
  if (researcher_messages.lookup "researcher_bull_agent" = none ∨
      researcher_messages.lookup "researcher_bear_agent" = none) ∧
      agent_signals = [] then
    .error "Missing required researcher_bull_agent or researcher_bear_agent messages"
  else
  let researcher_data := parse_researcher_data researcher_messages
  let step2 : Except String Analysis :=
    if 2 ≤ researcher_data.length then
      match O.llm researcher_data agent_signals current_regime with
      | .error e => .error e
      | .ok llm_score =>
          let regime_confidence := current_regime.confidence.getD (1/2)
          let adaptive_weight : ℚ := if regime_confidence > 3/5 then 7/10 else 1/2
          let llm_weight := 1 - adaptive_weight
          let numeric_signal :=
            match enhanced.signal with
            | .str str => signal_mapping str.toLower
            | .num q => q
          .ok { enhanced with
            signal := .num (adaptive_weight * numeric_signal + llm_weight * llm_score) }
    else .ok enhanced
  match step2 with
  | .error e => .error e
  | .ok enhanced2 => .ok (convert_numeric_signal_to_string enhanced2)

/-- `debate_room_agent` (src/agents/debate_room.py lines 17-235): runs
the body; on success wraps the final analysis in a message and, when
`show_reasoning` is set, records it in `metadata["agent_reasoning"]`; on
any exception returns the neutral default analysis (signal "neutral",
confidence 0.3, method "error_fallback"). -/
def debate_room_agent (O : Oracles) (s : AgentState) : AgentOutput :=
  match debate_room_body O s with
  | .ok analysis =>
      { messages := [⟨"debate_room_agent", analysis⟩],
        data := s.data,
        metadata :=
          if s.metadata.show_reasoning then
            { s.metadata with agent_reasoning := some analysis }
          else s.metadata }
  | .error e =>
      { messages := [⟨"debate_room_agent",
          ⟨.str "neutral", 3/10, "error_fallback", some e⟩⟩],
        data := s.data,
        metadata := s.metadata }

/-! ## Debate room: LLM-enhanced analysis

`_get_llm_enhanced_analysis` (src/agents/debate_room.py lines 321-426)
extracts the substring of the LLM response between the first braces and
parses it as JSON; JSON parsing itself (a stdlib call) is an oracle. -/

/-- Opening curly brace character. -/
def lbrace : Char := Char.ofNat 123

/-- Closing curly brace character. -/
def rbrace : Char := Char.ofNat 125

/-- Python `str.find` for a single character: index of the first
occurrence, `none` when absent (Python returns -1). -/
def find_index (c : Char) : List Char → Option ℕ
  | [] => none
  | x :: xs => if x = c then some 0 else (find_index c xs).map (· + 1)

/-- Python `str.rfind` for a single character: index of the last
occurrence, `none` when absent. -/
def rfind_index (c : Char) (l : List Char) : Option ℕ :=
  (find_index c l.reverse).map (fun i => l.length - 1 - i)

/-- The extraction step of `_get_llm_enhanced_analysis` (lines 409-412):
`json_start = resp.find(lbrace)`, `json_end = resp.rfind(rbrace) + 1`,
and `resp[json_start:json_end]` provided `json_start >= 0` and
`json_end > json_start`. -/
def extract_json_str (resp : List Char) : Option (List Char) :=
  match find_index lbrace resp, rfind_index rbrace resp with
  | some json_start, some rb =>
      let json_end := rb + 1
      if json_start < json_end then
        some ((resp.drop json_start).take (json_end - json_start))
      else none
  | _, _ => none

/-- The `score` entry of the parsed LLM JSON object: absent (`.get`
default 0), a number, or a value on which `float(...)` raises. -/
inductive ScoreField
  | missing
  | numeric (q : ℚ)
  | nonnumeric
deriving DecidableEq

/-- A parsed LLM JSON object: the `score` field is all the code reads. -/
structure LlmAnalysis where
  score : ScoreField
deriving DecidableEq

/-- The dict returned by `_get_llm_enhanced_analysis`: its `llm_score`
entry, and whether it is the failure dict (which carries an `error`
entry instead of the analysis). -/
structure LlmResult where
  llm_score : ℚ
  failed : Bool
deriving DecidableEq

/-- `_get_llm_enhanced_analysis` (src/agents/debate_room.py
lines 396-426) after the prompt was built: `parseJson` is the
`json.loads` oracle (`none` models a raised `JSONDecodeError`);
`llm_response = none` models a falsy LLM response.  On the success path
the score is clamped into [-1, 1]; every failure path returns
`llm_score = 0`. -/
def get_llm_enhanced_analysis (parseJson : List Char → Option LlmAnalysis)
    (llm_response : Option (List Char)) : LlmResult :=
  match llm_response with
  | none => ⟨0, true⟩
  | some resp =>
    match extract_json_str resp with
    | none => ⟨0, true⟩
    | some json_str =>
      match parseJson json_str with
      | none => ⟨0, true⟩
      | some llm_analysis =>
        match llm_analysis.score with
        | .numeric q => ⟨max (min q 1) (-1), false⟩
        | .missing => ⟨max (min (0:ℚ) 1) (-1), false⟩
        | .nonnumeric => ⟨0, true⟩

/-! ## MCP tool wrappers (src/mcp_api/mcp_tools/base.py)

The data-source methods are oracles returning `Except DSError DataFrame`:
`.error` models each of the exception classes the wrappers catch (the
catch-all `except Exception` is `unexpected`). -/

/-- A pandas DataFrame as seen by the formatting layer: a header row of
column names and a list of data rows. -/
structure DataFrame where
  header : List String
  rows : List (List String)
deriving DecidableEq

/-- The exceptions a data-source method may raise
(src/mcp_api/data_source_interface.py, not under the given sources, plus
`ValueError` and the catch-all `Exception`). -/
inductive DSError
  | noDataFound (msg : String)
  | loginError (msg : String)
  | dataSourceError (msg : String)
  | valueError (msg : String)
  | unexpected (msg : String)
deriving DecidableEq

/-- Modelled from the spec: `format_df_to_markdown` lives in
`src/mcp_api/formatting/markdown_formatter.py`, which is not among the
given sources.  Per the spec, tabular results are "converted to markdown
tables capped at fixed row/column counts": the cap keeps the first
`max_rows` rows and the first `max_cols` columns. -/
def truncate_df (df : DataFrame) (max_rows max_cols : ℕ) : DataFrame :=
  ⟨df.header.take max_cols, (df.rows.take max_rows).map (fun r => r.take max_cols)⟩

/-- Modelled from the spec: one markdown table row. -/
def render_markdown_row (cells : List String) : String :=
  "| " ++ String.intercalate " | " cells ++ " |"

/-- Modelled from the spec: a DataFrame rendered as a markdown table
(header, separator, data rows). -/
def render_markdown_table (df : DataFrame) : String :=
  String.intercalate "\n"
    (render_markdown_row df.header ::
     render_markdown_row (df.header.map (fun _ => "---")) ::
     df.rows.map render_markdown_row)

/-- Modelled from the spec: `format_df_to_markdown` renders the
truncated table. -/
def format_df_to_markdown (df : DataFrame) (max_rows max_cols : ℕ) : String :=
  render_markdown_table (truncate_df df max_rows max_cols)

/-- The error strings produced by the `except` clauses shared by all
three tool wrappers (src/mcp_api/mcp_tools/base.py lines 51-71, 105-124,
153-172). -/
def ds_error_string (e : DSError) : String :=
  match e with
  | .noDataFound m => "Error: " ++ m
  | .loginError m => "Error: Could not connect to data source. " ++ m
  | .dataSourceError m => "Error: An error occurred while fetching data. " ++ m
  | .valueError m => "Error: Invalid input parameter. " ++ m
  | .unexpected m => "Error: An unexpected error occurred: " ++ m

/-- Python `str.isdigit`: nonempty and all characters digits. -/
def pyIsDigit (s : String) : Bool := !s.isEmpty && s.data.all Char.isDigit

/-- A string beginning with `Error:`. -/
def isErrorString (s : String) : Bool := "Error:".data.isPrefixOf s.data

/-- `call_financial_data_tool` (src/mcp_api/mcp_tools/base.py
lines 10-71): validates year and quarter, calls the data-source method,
renders the result capped at 20 rows and 10 columns, and converts every
exception into an `Error:` string. -/
def call_financial_data_tool
    (data_source_method : String → String → ℤ → Except DSError DataFrame)
    (code year : String) (quarter : ℤ) : String :=
  if pyIsDigit year = false ∨ year.length ≠ 4 then
    "Error: Invalid year \x27" ++ year ++ "\x27. Please provide a 4-digit year."
  else if ¬(1 ≤ quarter ∧ quarter ≤ 4) then
    "Error: Invalid quarter \x27" ++ toString quarter ++ "\x27. Must be between 1 and 4."
  else
    match data_source_method code year quarter with
    | .ok df => format_df_to_markdown df 20 10
    | .error e => ds_error_string e

/-- `call_macro_data_tool` (src/mcp_api/mcp_tools/base.py lines 74-124):
calls the data-source method on the date range and renders the result
with `format_df_to_markdown`'s default caps (the defaults live in the
formatter module, which is not among the given sources; they are passed
here as the `default_max_rows`/`default_max_cols` parameters). -/
def call_macro_data_tool (default_max_rows default_max_cols : ℕ)
    (data_source_method : Option String → Option String → Except DSError DataFrame)
    (start_date end_date : Option String) : String :=
  match data_source_method start_date end_date with
  | .ok df => format_df_to_markdown df default_max_rows default_max_cols
  | .error e => ds_error_string e

/-- `call_index_constituent_tool` (src/mcp_api/mcp_tools/base.py
lines 127-172): calls the data-source method on the date and renders the
result with `format_df_to_markdown`'s default caps. -/
def call_index_constituent_tool (default_max_rows default_max_cols : ℕ)
    (data_source_method : Option String → Except DSError DataFrame)
    (date : Option String) : String :=
  match data_source_method date with
  | .ok df => format_df_to_markdown df default_max_rows default_max_cols
  | .error e => ds_error_string e

/-! ## Backtest baseline strategies (src/backtest/baselines)

`Signal` and `Portfolio` come from `base_strategy.py`, which is not
among the given sources; they are plain data carriers modelled from
their use sites (`action`, `quantity`, `confidence`, `reasoning`;
`cash`, `stock`). -/

/-- A trading signal (the `Signal` dataclass of `base_strategy.py`,
modelled from its use sites; the `metadata` entry is not modelled). -/
structure Signal where
  action : String
  quantity : ℤ
  confidence : ℚ
  reasoning : String
deriving DecidableEq

/-- A portfolio (the `Portfolio` dataclass of `base_strategy.py`,
modelled from its use sites). -/
structure Portfolio where
  cash : ℚ
  stock : ℚ
deriving DecidableEq

/-- The mutable per-instance state of `BuyHoldStrategy`
(src/backtest/baselines/buy_hold.py lines 10-15). -/
structure BuyHoldStrategy where
  allocation_ratio : ℚ
  initial_purchase_made : Bool
deriving DecidableEq

/-- The hold signal of `BuyHoldStrategy.generate_signal`
(src/backtest/baselines/buy_hold.py lines 40-45). -/
def buyhold_hold_signal : Signal :=
  ⟨"hold", 0, 1, "Buy-and-hold strategy maintains position"⟩

/-- `BuyHoldStrategy.generate_signal` (src/backtest/baselines/buy_hold.py
lines 17-45).  `lastClose` is `data.iloc[-1]['close']` (`none` when the
frame is empty, an `IndexError`); dividing by a zero price raises
`ZeroDivisionError`.  The returned pair is (signal, updated instance
state); `.error` models a raised exception (state unchanged, since the
flag is only set right before the buy return). -/
def buyhold_generate_signal (st : BuyHoldStrategy) (lastClose : Option ℚ)
    (portfolio : Portfolio) : Except String (Signal × BuyHoldStrategy) :=
  if st.initial_purchase_made = false ∧ portfolio.cash > 0 then
    match lastClose with
    | none => .error "IndexError"
    | some current_price =>
      if current_price = 0 then .error "ZeroDivisionError"
      else
        let max_shares := pyInt (portfolio.cash * st.allocation_ratio / current_price)
        if max_shares > 0 then
          .ok (⟨"buy", max_shares, 1, "Initial buy-and-hold purchase"⟩,
            ⟨st.allocation_ratio, true⟩)
        else .ok (buyhold_hold_signal, st)
  else .ok (buyhold_hold_signal, st)

/-- One call to `BuyHoldStrategy.generate_signal`: the price data
(its last close) and the portfolio passed in. -/
def BHCall : Type := Option ℚ × Portfolio

/-- A sequence of `generate_signal` calls on a single `BuyHoldStrategy`
instance: the outcomes and the final instance state. -/
def buyhold_run (st : BuyHoldStrategy) :
    List BHCall → List (Except String Signal) × BuyHoldStrategy
  | [] => ([], st)
  | c :: cs =>
    match buyhold_generate_signal st c.1 c.2 with
    | .ok (sig, st2) =>
        let r := buyhold_run st2 cs
        (.ok sig :: r.1, r.2)
    | .error e =>
        let r := buyhold_run st cs
        (.error e :: r.1, r.2)

/-- Whether a call outcome is a returned buy signal. -/
def isBuyOut : Except String Signal → Bool
  | .ok sig => sig.action = "buy"
  | .error _ => false

/-- The configuration of `MovingAverageStrategy`
(src/backtest/baselines/moving_average.py lines 10-19; `last_signal` and
`signal_count` are never touched by `generate_signal` and are omitted). -/
structure MovingAverageStrategy where
  short_window : ℕ
  long_window : ℕ
  signal_threshold : ℚ
deriving DecidableEq

/-- pandas `Series.tail(n)`: the last `n` elements. -/
def pandas_tail (n : ℕ) (l : List ℚ) : List ℚ := l.drop (l.length - n)

/-- pandas `Series.mean()`: `none` models the NaN returned on an empty
series; every comparison against it is false. -/
def pandas_mean (l : List ℚ) : Option ℚ :=
  if l.isEmpty then none else some (l.sum / l.length)

/-- Strict comparison of possibly-NaN values: false when either side is
NaN, mirroring IEEE float comparisons. -/
def optLt (a b : Option ℚ) : Bool :=
  match a, b with
  | some x, some y => x < y
  | _, _ => false

/-- Non-strict comparison of possibly-NaN values: false when either side
is NaN. -/
def optLe (a b : Option ℚ) : Bool :=
  match a, b with
  | some x, some y => x ≤ y
  | _, _ => false

/-- The `position_ratio < 0.9` test of `MovingAverageStrategy`
(src/backtest/baselines/moving_average.py lines 59, 62).  The operands
are numpy floats, so a zero denominator yields ±inf or NaN rather than
raising: the test is then true exactly when the numerator is negative
(-inf < 0.9). -/
def position_ratio_lt_09 (portfolio : Portfolio) (current_price : ℚ) : Bool :=
  let num := portfolio.stock * current_price
  let denom := portfolio.cash + num
  if denom = 0 then decide (num < 0) else decide (num / denom < 9/10)

/-- The previous-period series `prices.iloc[-(window+1):-1]`
(src/backtest/baselines/moving_average.py lines 45-46). -/
def ma_prev_window (window : ℕ) (prices : List ℚ) : List ℚ :=
  (prices.drop (prices.length - (window + 1))).dropLast

/-- The `golden_cross` flag (src/backtest/baselines/moving_average.py
lines 44-56): a crossover test when one more period of data is
available, else the simple threshold relation of the current averages. -/
def ma_golden_cross (strat : MovingAverageStrategy) (prices : List ℚ) : Bool :=
  let short_ma := pandas_mean (pandas_tail strat.short_window prices)
  let long_ma := pandas_mean (pandas_tail strat.long_window prices)
  if strat.long_window + 1 ≤ prices.length then
    let prev_short_ma := pandas_mean (ma_prev_window strat.short_window prices)
    let prev_long_ma := pandas_mean (ma_prev_window strat.long_window prices)
    optLe prev_short_ma prev_long_ma && optLt long_ma short_ma
  else
    optLt (long_ma.map (· * (1 + strat.signal_threshold))) short_ma

/-- The `death_cross` flag (src/backtest/baselines/moving_average.py
lines 44-56). -/
def ma_death_cross (strat : MovingAverageStrategy) (prices : List ℚ) : Bool :=
  let short_ma := pandas_mean (pandas_tail strat.short_window prices)
  let long_ma := pandas_mean (pandas_tail strat.long_window prices)
  if strat.long_window + 1 ≤ prices.length then
    let prev_short_ma := pandas_mean (ma_prev_window strat.short_window prices)
    let prev_long_ma := pandas_mean (ma_prev_window strat.long_window prices)
    optLe prev_long_ma prev_short_ma && optLt short_ma long_ma
  else
    optLt short_ma (long_ma.map (· * (1 - strat.signal_threshold)))

/-- `MovingAverageStrategy.generate_signal`
(src/backtest/baselines/moving_average.py lines 21-115).  `prices` is
the `close` column; `.error` models the `IndexError` of `iloc[-1]` on an
empty frame. -/
def ma_generate_signal (strat : MovingAverageStrategy) (prices : List ℚ)
    (portfolio : Portfolio) : Except String Signal :=
  if prices.length < strat.long_window then
    .ok ⟨"hold", 0, 1/2, "Insufficient data"⟩
  else
    match prices.getLast? with
    | none => .error "IndexError"
    | some current_price =>
      if ma_golden_cross strat prices &&
          position_ratio_lt_09 portfolio current_price then
        let max_investment := portfolio.cash * (8/10)
        let quantity := pyInt (max_investment / current_price)
        if quantity > 0 then .ok ⟨"buy", quantity, 7/10, "Golden cross"⟩
        else .ok ⟨"hold", 0, 1/2, "No crossover"⟩
      else if ma_death_cross strat prices && decide (portfolio.stock > 0) then
        let quantity := pyInt (portfolio.stock * (8/10))
        if quantity > 0 then .ok ⟨"sell", quantity, 7/10, "Death cross"⟩
        else .ok ⟨"hold", 0, 1/2, "No crossover"⟩
      else .ok ⟨"hold", 0, 1/2, "No crossover"⟩

/-! ## Concrete inputs used by the witness and counterexample theorems -/

/-- Two researcher messages, one of which carries a negative numeric
confidence (-0.5), which `_parse_confidence` passes through unchanged. -/
def c2_negative_conf_messages : List (String × ContentVal) :=
  [("researcher_bull_agent",
      .strParsable (.dict ⟨none, some "bullish", some (.num 1)⟩)),
   ("researcher_bear_agent",
      .strParsable (.dict ⟨none, some "bearish", some (.num (-(1/2)))⟩))]

/-- Two researcher messages with nonnegative confidences. -/
def c2_nonneg_messages : List (String × ContentVal) :=
  [("researcher_bull_agent",
      .strParsable (.dict ⟨none, some "bullish", some (.num (4/5))⟩)),
   ("researcher_bear_agent",
      .strParsable (.dict ⟨none, some "bearish", some (.num (3/5))⟩))]

/-- Oracles whose regime detection succeeds with a named regime and
whose other calls succeed trivially. -/
def c3_oracles : Oracles :=
  ⟨fun _ => .ok ⟨some "bull_market", some (4/5)⟩,
   fun _ _ => .ok ⟨0, 0⟩,
   fun _ _ _ => .ok 0⟩

/-- A state with no messages at all: no researcher messages and no agent
signals, so the body raises the missing-researchers `ValueError`. -/
def c3_state : AgentState := ⟨[], ⟨some [], []⟩, ⟨false, none⟩⟩

/-- Two buy-hold calls at price 10 with 100 cash. -/
def c8_calls : List BHCall := [(some 10, ⟨100, 0⟩), (some 10, ⟨100, 0⟩)]

/-! ## Helper lemmas -/

lemma numericToString_eq_bullish (q : ℚ) :
    numericToString q = "bullish" ↔ q > 1/10 := by
  unfold numericToString
  split_ifs with h1 h2 <;> simp_all

lemma numericToString_eq_bearish (q : ℚ) :
    numericToString q = "bearish" ↔ q < -(1/10) := by
  unfold numericToString
  split_ifs with h1 h2 <;> simp_all
  linarith

lemma numericToString_eq_neutral (q : ℚ) :
    numericToString q = "neutral" ↔ (-(1/10) ≤ q ∧ q ≤ 1/10) := by
  unfold numericToString
  split_ifs with h1 h2
  · constructor
    · intro hh; exact absurd hh (by decide)
    · rintro ⟨-, hr⟩; linarith
  · constructor
    · intro hh; exact absurd hh (by decide)
    · rintro ⟨hl, -⟩; linarith
  · push_neg at h1 h2
    exact iff_of_true rfl ⟨by linarith, by linarith⟩

lemma convert_signal_eq (a : Analysis) (q : ℚ) (h : a.signal = .num q) :
    (convert_numeric_signal_to_string a).signal = .str (numericToString q) := by
  obtain ⟨sig, c, m, e⟩ := a
  simp only at h
  subst h
  simp [convert_numeric_signal_to_string, numericToString]

/-! ## Claims -/

/-- Claim C1: the numeric-to-string signal conversion yields "bullish"
exactly when the numeric signal exceeds 0.1, "bearish" exactly when it
is below -0.1, and "neutral" otherwise; and the traditional debate
logic classifies its averaged researcher signal with the same ±0.1
thresholds. -/
theorem claim_C1 (a : Analysis) (q : ℚ) (h : a.signal = .num q) :
    ((convert_numeric_signal_to_string a).signal = .str "bullish" ↔ q > 1/10) ∧
    ((convert_numeric_signal_to_string a).signal = .str "bearish" ↔ q < -(1/10)) ∧
    ((convert_numeric_signal_to_string a).signal = .str "neutral" ↔
      (-(1/10) ≤ q ∧ q ≤ 1/10)) ∧
    (∀ msgs : List (String × ContentVal), 2 ≤ msgs.length →
      (traditional_debate_logic msgs).signal =
        .str (numericToString (traditional_avg_signal msgs))) := by
  have hc := convert_signal_eq a q h
  refine ⟨?_, ?_, ?_, ?_⟩
  · rw [hc]; simp only [SignalVal.str.injEq]; exact numericToString_eq_bullish q
  · rw [hc]; simp only [SignalVal.str.injEq]; exact numericToString_eq_bearish q
  · rw [hc]; simp only [SignalVal.str.injEq]; exact numericToString_eq_neutral q
  · intro msgs hlen
    unfold traditional_debate_logic
    rw [if_neg (by omega)]
    simp [numericToString]

/-- Witness for claim C1 at the numeric signal 0.2 and a concrete pair
of researcher messages. -/
theorem claim_C1_witness :
    (convert_numeric_signal_to_string ⟨.num (1/5), 1/2, "m", none⟩).signal =
      .str "bullish" ∧
    (traditional_debate_logic c2_nonneg_messages).signal =
      .str (numericToString (traditional_avg_signal c2_nonneg_messages)) := by
  have h := claim_C1 ⟨.num (1/5), 1/2, "m", none⟩ (1/5) rfl
  exact ⟨h.1.mpr (by norm_num), h.2.2.2 c2_nonneg_messages (by decide)⟩

/-- Claim C4: the string-to-numeric-to-string signal normalization
round-trips on "bullish", "neutral" and "bearish". -/
theorem claim_C4 :
    (convert_numeric_signal_to_string
      ⟨.num (signal_mapping "bullish"), 1/2, "m", none⟩).signal = .str "bullish" ∧
    (convert_numeric_signal_to_string
      ⟨.num (signal_mapping "neutral"), 1/2, "m", none⟩).signal = .str "neutral" ∧
    (convert_numeric_signal_to_string
      ⟨.num (signal_mapping "bearish"), 1/2, "m", none⟩).signal = .str "bearish" := by
  refine ⟨?_, ?_, ?_⟩ <;>
    simp [convert_numeric_signal_to_string, signal_mapping] <;> norm_num

lemma perspective_values_bounds (p : String) :
    -1 ≤ perspective_values p ∧ perspective_values p ≤ 1 := by
  unfold perspective_values
  split_ifs <;> norm_num

lemma traditional_items_fst_bounds (msgs : List (String × ContentVal)) :
    ∀ it ∈ traditional_items msgs, -1 ≤ it.1 ∧ it.1 ≤ 1 := by
  intro it hit
  unfold traditional_items at hit
  rw [List.mem_filterMap] at hit
  obtain ⟨nc, -, heq⟩ := hit
  rcases nc with ⟨name, cv⟩
  cases cv with
  | pynone => simp at heq
  | strParsable v =>
      cases v with
      | dict d =>
          simp only [Option.some.injEq] at heq
          rw [← heq]
          exact perspective_values_bounds _
      | nondict => simp at heq
  | strAstOnly v => simp at heq
  | strBad => simp at heq
  | raw v => simp at heq

lemma weighted_sum_bounds (items : List (ℚ × ℚ))
    (h : ∀ it ∈ items, 0 ≤ it.2 ∧ -1 ≤ it.1 ∧ it.1 ≤ 1) :
    -(total_confidence_of items) ≤ total_signal_of items ∧
    total_signal_of items ≤ total_confidence_of items := by
  induction items with
  | nil => simp [total_signal_of, total_confidence_of]
  | cons a l ih =>
      have ha := h a (List.mem_cons_self a l)
      have ihl := ih (fun it hit => h it (List.mem_cons_of_mem a hit))
      simp only [total_signal_of, total_confidence_of, List.map_cons,
        List.sum_cons] at *
      obtain ⟨hc, hl, hr⟩ := ha
      have h1 : a.1 * a.2 ≤ a.2 := by nlinarith
      have h2 : -a.2 ≤ a.1 * a.2 := by nlinarith
      constructor <;> linarith [ihl.1, ihl.2]

/-- Claim C2 (amended): for researcher messages whose parsed perspectives
lie in the known set, the weighted-average signal of the traditional
debate logic lies in [-1, 1] provided every parsed confidence is
nonnegative. -/
theorem claim_C2 (msgs : List (String × ContentVal))
    (h : ∀ it ∈ traditional_items msgs, 0 ≤ it.2) :
    -1 ≤ traditional_avg_signal msgs ∧ traditional_avg_signal msgs ≤ 1 := by
  have hb : ∀ it ∈ traditional_items msgs, 0 ≤ it.2 ∧ -1 ≤ it.1 ∧ it.1 ≤ 1 :=
    fun it hit => ⟨h it hit, traditional_items_fst_bounds msgs it hit⟩
  have hs := weighted_sum_bounds _ hb
  simp only [traditional_avg_signal]
  split_ifs with h1 h2
  · constructor
    · rw [le_div_iff₀ h2]; linarith [hs.1]
    · rw [div_le_iff₀ h2]; linarith [hs.2]
  · norm_num
  · norm_num

/-- Witness for claim C2 on a concrete pair of researcher messages with
nonnegative confidences. -/
theorem claim_C2_witness :
    -1 ≤ traditional_avg_signal c2_nonneg_messages ∧
    traditional_avg_signal c2_nonneg_messages ≤ 1 :=
  claim_C2 c2_nonneg_messages (by
    simp [traditional_items, c2_nonneg_messages, parse_confidence,
      perspective_values, List.filterMap_cons]
    norm_num)

/-- Counterexample to claim C2 as stated: with perspectives bullish and
bearish and raw confidences 1.0 and -0.5 (so parsed confidences 1 and
-0.5), the weighted-average signal is 3, outside [-1, 1]. -/
theorem claim_C2_counterexample :
    traditional_avg_signal c2_negative_conf_messages = 3 ∧
    ¬(-1 ≤ traditional_avg_signal c2_negative_conf_messages ∧
      traditional_avg_signal c2_negative_conf_messages ≤ 1) := by
  have h3 : traditional_avg_signal c2_negative_conf_messages = 3 := by
    simp [traditional_avg_signal, traditional_items, c2_negative_conf_messages,
      total_signal_of, total_confidence_of, perspective_values, parse_confidence,
      List.filterMap_cons]
    norm_num
  rw [h3]
  norm_num

lemma clamp_bounds (q : ℚ) : -1 ≤ max (min q 1) (-1) ∧ max (min q 1) (-1) ≤ 1 :=
  ⟨le_max_right _ _, max_le (le_trans (min_le_right _ _) le_rfl) (by norm_num)⟩

/-- Claim C5: the `llm_score` returned by `_get_llm_enhanced_analysis`
always lies in [-1, 1]; and whenever the LLM response is falsy, the
brace-delimited extraction fails, or JSON parsing fails, the returned
`llm_score` is 0. -/
theorem claim_C5 (parseJson : List Char → Option LlmAnalysis)
    (resp : Option (List Char)) :
    (-1 ≤ (get_llm_enhanced_analysis parseJson resp).llm_score ∧
      (get_llm_enhanced_analysis parseJson resp).llm_score ≤ 1) ∧
    (resp = none → (get_llm_enhanced_analysis parseJson resp).llm_score = 0) ∧
    (∀ s, resp = some s → extract_json_str s = none →
      (get_llm_enhanced_analysis parseJson resp).llm_score = 0) ∧
    (∀ s json_str, resp = some s → extract_json_str s = some json_str →
      parseJson json_str = none →
      (get_llm_enhanced_analysis parseJson resp).llm_score = 0) := by
  refine ⟨?_, ?_, ?_, ?_⟩
  · cases resp with
    | none => simp [get_llm_enhanced_analysis]
    | some s =>
        cases he : extract_json_str s with
        | none => simp [get_llm_enhanced_analysis, he]
        | some js =>
            cases hp : parseJson js with
            | none => simp [get_llm_enhanced_analysis, he, hp]
            | some a =>
                cases hs : a.score with
                | missing =>
                    simp [get_llm_enhanced_analysis, he, hp, hs]
                | numeric q =>
                    simp only [get_llm_enhanced_analysis, he, hp, hs]
                    exact clamp_bounds q
                | nonnumeric => simp [get_llm_enhanced_analysis, he, hp, hs]
  · intro h; subst h; simp [get_llm_enhanced_analysis]
  · intro s h he; subst h; simp [get_llm_enhanced_analysis, he]
  · intro s js h he hp; subst h; simp [get_llm_enhanced_analysis, he, hp]

/-- Witness for claim C5: a response with no braces at all makes the
extraction fail and the score is 0 and inside [-1, 1]. -/
theorem claim_C5_witness :
    (get_llm_enhanced_analysis (fun _ => none) (some ['n', 'o'])).llm_score = 0 ∧
    -1 ≤ (get_llm_enhanced_analysis (fun _ => none) (some ['n', 'o'])).llm_score := by
  have h := claim_C5 (fun _ => none) (some ['n', 'o'])
  exact ⟨h.2.2.1 ['n', 'o'] rfl (by decide), h.1.1⟩

lemma isErrorString_append (pre m : String) (h : isErrorString pre = true) :
    isErrorString (pre ++ m) = true := by
  simp only [isErrorString, String.data_append, List.isPrefixOf_iff_prefix] at h ⊢
  exact h.trans (List.prefix_append pre.data m.data)

lemma ds_error_string_isError (e : DSError) :
    isErrorString (ds_error_string e) = true := by
  cases e <;> exact isErrorString_append _ _ (by decide)

/-- Claim C6: on a successful data-source call each of the three tool
wrappers returns the result rendered as a markdown table with capped
rows and columns; `call_financial_data_tool` caps at 20 rows and 10
columns, and the truncation indeed bounds the row and column counts. -/
theorem claim_C6 :
    (∀ (m : String → String → ℤ → Except DSError DataFrame) code year quarter df,
      pyIsDigit year = true → year.length = 4 → 1 ≤ quarter → quarter ≤ 4 →
      m code year quarter = .ok df →
      call_financial_data_tool m code year quarter =
        render_markdown_table (truncate_df df 20 10)) ∧
    (∀ (mr mc : ℕ) (m : Option String → Option String → Except DSError DataFrame)
        sd ed df, m sd ed = .ok df →
      call_macro_data_tool mr mc m sd ed = render_markdown_table (truncate_df df mr mc)) ∧
    (∀ (mr mc : ℕ) (m : Option String → Except DSError DataFrame) d df,
      m d = .ok df →
      call_index_constituent_tool mr mc m d =
        render_markdown_table (truncate_df df mr mc)) ∧
    (∀ df mr mc, (truncate_df df mr mc).rows.length ≤ mr ∧
      (truncate_df df mr mc).header.length ≤ mc ∧
      ∀ row ∈ (truncate_df df mr mc).rows, row.length ≤ mc) := by
  refine ⟨?_, ?_, ?_, ?_⟩
  · intro m code year quarter df h1 h2 h3 h4 hm
    unfold call_financial_data_tool
    rw [if_neg (by simp [h1, h2]), if_neg (by push_neg; exact ⟨h3, h4⟩), hm]
    rfl
  · intro mr mc m sd ed df hm
    unfold call_macro_data_tool
    rw [hm]
    rfl
  · intro mr mc m d df hm
    unfold call_index_constituent_tool
    rw [hm]
    rfl
  · intro df mr mc
    refine ⟨?_, ?_, ?_⟩
    · simp only [truncate_df, List.length_map, List.length_take]
      exact min_le_left _ _
    · simp only [truncate_df, List.length_take]
      exact min_le_left _ _
    · intro row hrow
      simp only [truncate_df, List.mem_map] at hrow
      obtain ⟨r0, -, rfl⟩ := hrow
      simp only [List.length_take]
      exact min_le_left _ _

/-- Witness for claim C6 on a one-cell DataFrame returned successfully
by all three (oracle) data-source methods. -/
theorem claim_C6_witness :
    call_financial_data_tool (fun _ _ _ => .ok ⟨["a"], [["1"]]⟩) "sh.600000" "2024" 2 =
      render_markdown_table (truncate_df ⟨["a"], [["1"]]⟩ 20 10) ∧
    call_macro_data_tool 250 250 (fun _ _ => .ok ⟨["a"], [["1"]]⟩) none none =
      render_markdown_table (truncate_df ⟨["a"], [["1"]]⟩ 250 250) ∧
    call_index_constituent_tool 250 250 (fun _ => .ok ⟨["a"], [["1"]]⟩) none =
      render_markdown_table (truncate_df ⟨["a"], [["1"]]⟩ 250 250) ∧
    (truncate_df ⟨["a"], [["1"]]⟩ 20 10).rows.length ≤ 20 := by
  have h := claim_C6
  refine ⟨h.1 _ "sh.600000" "2024" 2 ⟨["a"], [["1"]]⟩ (by decide) (by decide)
      (by decide) (by decide) rfl,
    h.2.1 250 250 _ none none ⟨["a"], [["1"]]⟩ rfl,
    h.2.2.1 250 250 _ none ⟨["a"], [["1"]]⟩ rfl,
    (h.2.2.2 ⟨["a"], [["1"]]⟩ 20 10).1⟩

/-- Claim C7: `call_financial_data_tool` is total (it always returns a
string); on an invalid year or quarter it returns an `Error:` string
without invoking the data-source method (its result does not depend on
the method), and on any exception from the method it returns an
`Error:` string. -/
theorem claim_C7 (m : String → String → ℤ → Except DSError DataFrame)
    (code year : String) (quarter : ℤ) :
    ((pyIsDigit year = false ∨ year.length ≠ 4 ∨ ¬(1 ≤ quarter ∧ quarter ≤ 4)) →
      isErrorString (call_financial_data_tool m code year quarter) = true ∧
      ∀ m2, call_financial_data_tool m code year quarter =
        call_financial_data_tool m2 code year quarter) ∧
    (∀ e, m code year quarter = .error e →
      isErrorString (call_financial_data_tool m code year quarter) = true) := by
  constructor
  · intro hinv
    by_cases hy : pyIsDigit year = false ∨ year.length ≠ 4
    · constructor
      · unfold call_financial_data_tool
        rw [if_pos hy]
        exact isErrorString_append ("Error: Invalid year \x27" ++ year)
          "\x27. Please provide a 4-digit year."
          (isErrorString_append "Error: Invalid year \x27" year (by decide))
      · intro m2
        unfold call_financial_data_tool
        rw [if_pos hy, if_pos hy]
    · have hq : ¬(1 ≤ quarter ∧ quarter ≤ 4) := by tauto
      constructor
      · unfold call_financial_data_tool
        rw [if_neg hy, if_pos hq]
        exact isErrorString_append ("Error: Invalid quarter \x27" ++ toString quarter)
          "\x27. Must be between 1 and 4."
          (isErrorString_append "Error: Invalid quarter \x27" (toString quarter)
            (by decide))
      · intro m2
        unfold call_financial_data_tool
        rw [if_neg hy, if_pos hq, if_neg hy, if_pos hq]
  · intro e he
    unfold call_financial_data_tool
    split_ifs with h1 h2
    all_goals
      first
        | (rw [he]; exact ds_error_string_isError e)
        | exact isErrorString_append ("Error: Invalid year \x27" ++ year)
            "\x27. Please provide a 4-digit year."
            (isErrorString_append "Error: Invalid year \x27" year (by decide))
        | exact isErrorString_append ("Error: Invalid quarter \x27" ++ toString quarter)
            "\x27. Must be between 1 and 4."
            (isErrorString_append "Error: Invalid quarter \x27" (toString quarter)
              (by decide))

/-- Witness for claim C7: an out-of-range quarter yields an `Error:`
string independent of the method, and a raising method yields an
`Error:` string. -/
theorem claim_C7_witness :
    (isErrorString (call_financial_data_tool
        (fun _ _ _ => .ok ⟨[], []⟩) "sh.600000" "2024" 7) = true ∧
      call_financial_data_tool (fun _ _ _ => .ok ⟨[], []⟩) "sh.600000" "2024" 7 =
        call_financial_data_tool (fun _ _ _ => .error (.unexpected "boom"))
          "sh.600000" "2024" 7) ∧
    isErrorString (call_financial_data_tool
      (fun _ _ _ => .error (.loginError "denied")) "sh.600000" "2024" 2) = true := by
  have h1 := claim_C7 (fun _ _ _ => .ok ⟨[], []⟩) "sh.600000" "2024" 7
  have h2 := claim_C7 (fun _ _ _ => .error (.loginError "denied")) "sh.600000" "2024" 2
  have hinv : pyIsDigit "2024" = false ∨ "2024".length ≠ 4 ∨
      ¬(1 ≤ (7:ℤ) ∧ (7:ℤ) ≤ 4) := by decide
  exact ⟨⟨(h1.1 hinv).1, (h1.1 hinv).2 _⟩, h2.2 (.loginError "denied") rfl⟩

/-- Claim C3: whenever any exception escapes the body of
`debate_room_agent`, the agent does not propagate it but returns exactly
one message whose content has signal "neutral" and confidence 0.3. -/
theorem claim_C3 (O : Oracles) (s : AgentState) (e : String)
    (h : debate_room_body O s = .error e) :
    (debate_room_agent O s).messages.map
        (fun m => (m.name, m.content.signal, m.content.confidence)) =
      [("debate_room_agent", .str "neutral", 3/10)] := by
  simp [debate_room_agent, h]

/-- Witness for claim C3: with no researcher messages and no agent
signals the body raises the missing-researchers `ValueError`, and the
agent returns the neutral default. -/
theorem claim_C3_witness :
    (debate_room_agent c3_oracles c3_state).messages.map
        (fun m => (m.name, m.content.signal, m.content.confidence)) =
      [("debate_room_agent", .str "neutral", 3/10)] := by
  have hb : debate_room_body c3_oracles c3_state =
      .error "Missing required researcher_bull_agent or researcher_bear_agent messages" := by
    norm_num [debate_room_body, c3_oracles, c3_state, collect_agent_signals,
      collect_researcher_messages, traditional_debate_logic]
  exact claim_C3 c3_oracles c3_state _ hb

/-- Claim C10: the dict returned by `debate_room_agent` carries the
input state's `data` field through unchanged on both the normal and the
exception-fallback path; it appends exactly one message, does not flip
`show_reasoning`, and leaves the metadata untouched when
`show_reasoning` is unset. -/
theorem claim_C10 (O : Oracles) (s : AgentState) :
    (debate_room_agent O s).data = s.data ∧
    (debate_room_agent O s).messages.length = 1 ∧
    (debate_room_agent O s).metadata.show_reasoning = s.metadata.show_reasoning ∧
    (s.metadata.show_reasoning = false →
      (debate_room_agent O s).metadata = s.metadata) := by
  cases hb : debate_room_body O s with
  | ok analysis =>
      refine ⟨by simp [debate_room_agent, hb], by simp [debate_room_agent, hb],
        ?_, ?_⟩
      · by_cases hs : s.metadata.show_reasoning <;>
          simp [debate_room_agent, hb, hs]
      · intro hs; simp [debate_room_agent, hb, hs]
  | error e =>
      exact ⟨by simp [debate_room_agent, hb], by simp [debate_room_agent, hb],
        by simp [debate_room_agent, hb], fun _ => by simp [debate_room_agent, hb]⟩

/-- Witness for claim C10 at concrete oracles and state (whose
`show_reasoning` is unset, discharging the conditional part). -/
theorem claim_C10_witness :
    (debate_room_agent c3_oracles c3_state).data = c3_state.data ∧
    (debate_room_agent c3_oracles c3_state).metadata = c3_state.metadata := by
  have h := claim_C10 c3_oracles c3_state
  exact ⟨h.1, h.2.2.2 rfl⟩

lemma buyhold_flag_true (st : BuyHoldStrategy)
    (h : st.initial_purchase_made = true) (d : Option ℚ) (p : Portfolio) :
    buyhold_generate_signal st d p = .ok (buyhold_hold_signal, st) := by
  simp [buyhold_generate_signal, h]

lemma buyhold_run_all_hold (calls : List BHCall) (st : BuyHoldStrategy)
    (h : st.initial_purchase_made = true) :
    (buyhold_run st calls).1 = calls.map (fun _ => .ok buyhold_hold_signal) := by
  induction calls with
  | nil => simp [buyhold_run]
  | cons c cs ih =>
      simp only [buyhold_run, buyhold_flag_true st h c.1 c.2, List.map_cons]
      rw [ih]

lemma buyhold_generate_cases {st st2 : BuyHoldStrategy} {sig : Signal}
    {d : Option ℚ} {p : Portfolio}
    (h : buyhold_generate_signal st d p = .ok (sig, st2)) :
    (sig.action = "buy" → st2.initial_purchase_made = true) ∧
    (sig.action ≠ "buy" → st2 = st) := by
  simp only [buyhold_generate_signal] at h
  split at h
  · split at h
    · simp at h
    · split at h
      · simp at h
      · split at h
        · simp only [Except.ok.injEq, Prod.mk.injEq] at h
          obtain ⟨h1, h2⟩ := h
          subst h1; subst h2
          exact ⟨fun _ => rfl, fun hne => absurd rfl hne⟩
        · simp only [Except.ok.injEq, Prod.mk.injEq] at h
          obtain ⟨h1, h2⟩ := h
          subst h1; subst h2
          exact ⟨fun hb => absurd hb (by decide), fun _ => rfl⟩
  · simp only [Except.ok.injEq, Prod.mk.injEq] at h
    obtain ⟨h1, h2⟩ := h
    subst h1; subst h2
    exact ⟨fun hb => absurd hb (by decide), fun _ => rfl⟩

lemma buyhold_countP (calls : List BHCall) (st : BuyHoldStrategy) :
    (buyhold_run st calls).1.countP isBuyOut ≤
      if st.initial_purchase_made then 0 else 1 := by
  induction calls generalizing st with
  | nil => simp [buyhold_run]
  | cons c cs ih =>
      by_cases hf : st.initial_purchase_made
      · have hall := buyhold_run_all_hold (c :: cs) st hf
        rw [hall, if_pos hf]
        simp [List.countP_map, isBuyOut, buyhold_hold_signal,
          Function.comp_def]
      · rw [if_neg hf]
        cases hg : buyhold_generate_signal st c.1 c.2 with
        | error e =>
            have hrun : (buyhold_run st (c :: cs)).1 =
                .error e :: (buyhold_run st cs).1 := by
              simp [buyhold_run, hg]
            rw [hrun, List.countP_cons]
            have hrest := ih st
            rw [if_neg hf] at hrest
            simpa [isBuyOut] using hrest
        | ok pair =>
            obtain ⟨sig, st2⟩ := pair
            have hrun : (buyhold_run st (c :: cs)).1 =
                .ok sig :: (buyhold_run st2 cs).1 := by
              simp [buyhold_run, hg]
            rw [hrun, List.countP_cons]
            by_cases hb : sig.action = "buy"
            · have h2 : st2.initial_purchase_made = true :=
                (buyhold_generate_cases hg).1 hb
              have hrest := ih st2
              rw [if_pos h2] at hrest
              have hbuy : isBuyOut (Except.ok sig) = true := by
                simp [isBuyOut, hb]
              rw [hbuy, if_pos rfl]
              omega
            · have h2 : st2 = st := (buyhold_generate_cases hg).2 hb
              subst h2
              have hrest := ih st2
              rw [if_neg hf] at hrest
              simpa [isBuyOut, hb] using hrest

lemma buyhold_suffix_hold (calls : List BHCall) (st : BuyHoldStrategy)
    (pre post : List (Except String Signal)) (b : Signal)
    (h : (buyhold_run st calls).1 = pre ++ .ok b :: post)
    (hb : b.action = "buy") :
    ∀ o ∈ post, o = .ok buyhold_hold_signal := by
  induction calls generalizing st pre with
  | nil =>
      rw [buyhold_run] at h
      exact absurd h.symm (by simp)
  | cons c cs ih =>
      cases hg : buyhold_generate_signal st c.1 c.2 with
      | ok pair =>
          obtain ⟨sig, st2⟩ := pair
          have hrun : (buyhold_run st (c :: cs)).1 =
              .ok sig :: (buyhold_run st2 cs).1 := by
            simp [buyhold_run, hg]
          rw [hrun] at h
          cases pre with
          | nil =>
              simp only [List.nil_append, List.cons.injEq] at h
              obtain ⟨hsig, hpost⟩ := h
              have hsb : sig = b := by simpa using hsig
              subst hsb
              have h2 : st2.initial_purchase_made = true :=
                (buyhold_generate_cases hg).1 hb
              intro o ho
              rw [← hpost] at ho
              rw [buyhold_run_all_hold cs st2 h2] at ho
              obtain ⟨-, -, rfl⟩ := List.mem_map.mp ho
              rfl
          | cons y pre2 =>
              simp only [List.cons_append, List.cons.injEq] at h
              exact ih st2 pre2 h.2
      | error e =>
          have hrun : (buyhold_run st (c :: cs)).1 =
              .error e :: (buyhold_run st cs).1 := by
            simp [buyhold_run, hg]
          rw [hrun] at h
          cases pre with
          | nil => simp at h
          | cons y pre2 =>
              simp only [List.cons_append, List.cons.injEq] at h
              exact ih st pre2 h.2

/-- Claim C8: starting from a fresh `BuyHoldStrategy` instance, any
sequence of `generate_signal` calls returns at most one buy signal, and
every call after a returned buy returns the hold signal (action "hold",
quantity 0, confidence 1), whatever price data and portfolios are
passed. -/
theorem claim_C8 (r : ℚ) (calls : List BHCall) :
    (buyhold_run ⟨r, false⟩ calls).1.countP isBuyOut ≤ 1 ∧
    (∀ pre (b : Signal) post,
      (buyhold_run ⟨r, false⟩ calls).1 = pre ++ .ok b :: post →
      b.action = "buy" → ∀ o ∈ post, o = .ok buyhold_hold_signal) := by
  constructor
  · have h := buyhold_countP calls ⟨r, false⟩
    simpa using h
  · intro pre b post h hb
    exact buyhold_suffix_hold calls ⟨r, false⟩ pre post b h hb

/-- Witness for claim C8 on two concrete calls: the first returns a buy
of 10 shares, the second holds. -/
theorem claim_C8_witness :
    (buyhold_run ⟨1, false⟩ c8_calls).1.countP isBuyOut ≤ 1 ∧
    ∀ o ∈ [Except.ok (ε := String) buyhold_hold_signal],
      o = .ok buyhold_hold_signal := by
  have h := claim_C8 1 c8_calls
  have hrun : (buyhold_run ⟨1, false⟩ c8_calls).1 =
      [] ++ .ok ⟨"buy", 10, 1, "Initial buy-and-hold purchase"⟩ ::
        [.ok buyhold_hold_signal] := by
    norm_num [buyhold_run, c8_calls, buyhold_generate_signal, pyInt,
      buyhold_hold_signal]
  exact ⟨h.1, h.2 [] ⟨"buy", 10, 1, "Initial buy-and-hold purchase"⟩
    [.ok buyhold_hold_signal] hrun rfl⟩

lemma pyInt_le_self {q : ℚ} (h : 0 ≤ q) : (pyInt q : ℚ) ≤ q := by
  simp only [pyInt, if_pos h]
  exact_mod_cast Int.floor_le q

lemma pyInt_pos_imp {q : ℚ} (h : 0 < pyInt q) : 0 < q := by
  unfold pyInt at h
  split_ifs at h with h0
  · have h1 : ((1:ℤ) : ℚ) ≤ q := Int.le_floor.mp h
    push_cast at h1
    linarith
  · exact Int.one_le_ceil_iff.mp h

/-- Claim C9 (amended): every non-hold signal of
`MovingAverageStrategy.generate_signal` has quantity at least 1; a sell
is only returned with positive holdings and its quantity never exceeds
them; a buy is only returned when the position-ratio test passes, and
when the current price is positive the buy quantity never costs more
than 80% of the cash. -/
theorem claim_C9 (strat : MovingAverageStrategy) (prices : List ℚ)
    (p : Portfolio) (sig : Signal)
    (h : ma_generate_signal strat prices p = .ok sig) :
    (sig.action ≠ "hold" → 1 ≤ sig.quantity) ∧
    (sig.action = "sell" → 0 < p.stock ∧ (sig.quantity : ℚ) ≤ p.stock) ∧
    (∀ cp, prices.getLast? = some cp → sig.action = "buy" →
      position_ratio_lt_09 p cp = true ∧
      (0 < cp → (sig.quantity : ℚ) * cp ≤ 8/10 * p.cash)) := by
  simp only [ma_generate_signal] at h
  split at h
  · simp only [Except.ok.injEq] at h
    subst h
    exact ⟨fun hne => absurd rfl hne, fun hs => absurd hs (by simp),
      fun cp hcp hbuy => absurd hbuy (by simp)⟩
  · split at h
    next => simp at h
    next current_price heq =>
      split at h
      next hcross =>
        rw [Bool.and_eq_true] at hcross
        split at h
        next hqty =>
          simp only [Except.ok.injEq] at h
          subst h
          refine ⟨fun _ => ?_, fun hs => absurd hs (by simp),
            fun cp hcp hbuy => ?_⟩
          · show (1:ℤ) ≤ pyInt (p.cash * (8/10) / current_price)
            omega
          · have hcpe : cp = current_price := by
              rw [heq] at hcp
              exact (Option.some.inj hcp).symm
            subst hcpe
            refine ⟨hcross.2, fun hcp0 => ?_⟩
            show (pyInt (p.cash * (8/10) / cp) : ℚ) * cp ≤ 8/10 * p.cash
            have hm : 0 < p.cash * (8/10) / cp := pyInt_pos_imp hqty
            have hle : (pyInt (p.cash * (8/10) / cp) : ℚ) ≤ p.cash * (8/10) / cp :=
              pyInt_le_self hm.le
            have hmul : (pyInt (p.cash * (8/10) / cp) : ℚ) * cp ≤
                (p.cash * (8/10) / cp) * cp :=
              mul_le_mul_of_nonneg_right hle hcp0.le
            rw [div_mul_cancel₀ _ (ne_of_gt hcp0)] at hmul
            linarith
        next hqty =>
          simp only [Except.ok.injEq] at h
          subst h
          exact ⟨fun hne => absurd rfl hne, fun hs => absurd hs (by simp),
            fun cp hcp hbuy => absurd hbuy (by simp)⟩
      next hcross =>
        split at h
        next hdeath =>
          rw [Bool.and_eq_true] at hdeath
          split at h
          next hqty =>
            simp only [Except.ok.injEq] at h
            subst h
            refine ⟨fun _ => ?_, fun _ => ?_,
              fun cp hcp hbuy => absurd hbuy (by simp)⟩
            · show (1:ℤ) ≤ pyInt (p.stock * (8/10))
              omega
            · have hstock : 0 < p.stock := of_decide_eq_true hdeath.2
              have hnn : (0:ℚ) ≤ p.stock * (8/10) := by positivity
              have hle : (pyInt (p.stock * (8/10)) : ℚ) ≤ p.stock * (8/10) :=
                pyInt_le_self hnn
              refine ⟨hstock, ?_⟩
              show (pyInt (p.stock * (8/10)) : ℚ) ≤ p.stock
              linarith
          next hqty =>
            simp only [Except.ok.injEq] at h
            subst h
            exact ⟨fun hne => absurd rfl hne, fun hs => absurd hs (by simp),
              fun cp hcp hbuy => absurd hbuy (by simp)⟩
        next hdeath =>
          simp only [Except.ok.injEq] at h
          subst h
          exact ⟨fun hne => absurd rfl hne, fun hs => absurd hs (by simp),
            fun cp hcp hbuy => absurd hbuy (by simp)⟩

/-- Witness for claim C9: with windows 1/2 on prices [10, 20] and 100
cash, a buy of 4 shares is returned, its cost bounded by 80 cash. -/
theorem claim_C9_witness :
    1 ≤ ((4:ℤ)) ∧ position_ratio_lt_09 ⟨100, 0⟩ 20 = true ∧
    ((4:ℤ) : ℚ) * 20 ≤ 8/10 * 100 := by
  have hrun : ma_generate_signal ⟨1, 2, 1/200⟩ [10, 20] ⟨100, 0⟩ =
      .ok ⟨"buy", 4, 7/10, "Golden cross"⟩ := by
    norm_num [ma_generate_signal, ma_golden_cross, ma_death_cross,
      ma_prev_window, pandas_mean, pandas_tail, optLt, optLe,
      position_ratio_lt_09, pyInt]
  have h := claim_C9 ⟨1, 2, 1/200⟩ [10, 20] ⟨100, 0⟩ _ hrun
  have hb := h.2.2 20 rfl rfl
  exact ⟨h.1 (by decide), hb.1, hb.2 (by norm_num)⟩

/-- Counterexample to claim C9 as stated: with a negative price series
and negative cash (short/long windows 1, threshold 0.005, price -2,
cash -101, no stock), a buy of 40 shares is returned whose cost,
40 * (-2) = -80, exceeds 80% of the cash, 0.8 * (-101) = -80.8. -/
theorem claim_C9_counterexample :
    ma_generate_signal ⟨1, 1, 1/200⟩ [-2] ⟨-101, 0⟩ =
      .ok ⟨"buy", 40, 7/10, "Golden cross"⟩ ∧
    ¬(((40:ℤ) : ℚ) * (-2) ≤ 8/10 * (-101)) := by
  constructor
  · norm_num [ma_generate_signal, ma_golden_cross, ma_death_cross,
      ma_prev_window, pandas_mean, pandas_tail, optLt, optLe,
      position_ratio_lt_09, pyInt]
  · norm_num

end StockAgent
